import Mathlib

/-!
Verification development for the Triangle++ (TrianglePP) Delaunay wrapper.

The repository exposes the `tpp::Delaunay` class (source/tpp_interface.hpp):
input points are pairs of doubles, optionally constrained by PSLG segments,
hole markers and quality bounds; `Triangulate` builds a (constrained)
Delaunay triangulation, hole markers flood-fill away triangles, and
`Tesselate` derives the dual Voronoi diagram.  The computational engine
(Shewchuk's Triangle, wrapped by tpp_impl) is not part of the sources at
hand, only its public interface and its test suite are; the definitions
below therefore model the engine from the specification, as stated in each
doc comment.  Coordinates are modelled as exact rationals; for the concrete
inputs of the test scenarios every coordinate is a dyadic rational, so the
inputs are embedded as integer points in units of 1/8 (five-point set)
resp. 1/4 (trapezoidal set).  The signs of the orientation and incircle
predicates are invariant under this uniform scaling, so triangle counts and
flood-fill reachability are unaffected; bridging lemmas below relate the
scaled lists to the literal input coordinates.
-/

/-- Planar point with exact integer coordinates (an input point of the
triangulator after clearing the common denominator of its coordinates). -/
abbrev Pt := ℤ × ℤ

/-- Modelled from the spec: the `orient2d(a,b,c)` predicate of §4.1 (robust
geometric predicates, missing from the sources at hand) - the signed area
determinant of the triangle abc; positive iff a,b,c make a left turn.  Over
ℤ the sign is exact, as the spec demands. -/
def orient2d (a b c : Pt) : ℤ :=
  (b.1 - a.1) * (c.2 - a.2) - (b.2 - a.2) * (c.1 - a.1)

/-- Modelled from the spec: the `incircle(a,b,c,d)` predicate of §4.1
(missing from the sources at hand) - the determinant deciding whether d
lies strictly inside the circumcircle of the CCW triangle abc (positive iff
inside).  Exact over ℤ. -/
def incircleDet (a b c d : Pt) : ℤ :=
  (((a.1 - d.1) * (a.1 - d.1) + (a.2 - d.2) * (a.2 - d.2)) *
      ((b.1 - d.1) * (c.2 - d.2) - (b.2 - d.2) * (c.1 - d.1)))
  - (((b.1 - d.1) * (b.1 - d.1) + (b.2 - d.2) * (b.2 - d.2)) *
      ((a.1 - d.1) * (c.2 - d.2) - (a.2 - d.2) * (c.1 - d.1)))
  + (((c.1 - d.1) * (c.1 - d.1) + (c.2 - d.2) * (c.2 - d.2)) *
      ((a.1 - d.1) * (b.2 - d.2) - (a.2 - d.2) * (b.1 - d.1)))

/-- Vertex access into the input point list (out-of-range indices never
occur for the index triples produced below). -/
def ptAt (pts : List Pt) (i : ℕ) : Pt := pts.getD i (0, 0)

/-- All index triples i < j < k below n. -/
def idxTriples (n : ℕ) : List (ℕ × ℕ × ℕ) :=
  (List.range n).flatMap (fun i =>
    (List.range n).flatMap (fun j =>
      (List.range n).filterMap (fun k =>
        if i < j && j < k then some (i, j, k) else none)))

/-- Modelled from the spec: the Delaunay triangulation built by the missing
construction code (§4.4, glossary, invariant 3 of §3): the faces are
exactly the non-degenerate triangles over the input points whose
circumcircle contains no input point strictly inside.  For point sets in
general position (no four points cocircular) - which holds for every input
considered here - this empty-circumcircle characterisation yields precisely
the faces of the unique Delaunay triangulation.  Each face is returned as
an index triple in CCW order. -/
def delaunayTriangles (pts : List Pt) : List (ℕ × ℕ × ℕ) :=
  (idxTriples pts.length).filterMap (fun t =>
    match t with
    | (i, j, k) =>
      let a := ptAt pts i
      let b := ptAt pts j
      let c := ptAt pts k
      if orient2d a b c = 0 then none
      else
        let u : ℕ × ℕ × ℕ := if orient2d a b c > 0 then (i, j, k) else (i, k, j)
        if (List.range pts.length).all (fun l =>
              l == i || l == j || l == k ||
              incircleDet (ptAt pts u.1) (ptAt pts u.2.1) (ptAt pts u.2.2) (ptAt pts l) ≤ 0)
        then some u else none)

/-- Vertex indices of a face. -/
def triVerts (t : ℕ × ℕ × ℕ) : List ℕ := [t.1, t.2.1, t.2.2]

/-- Does the (unordered) vertex pair v,w form a constraining subsegment? -/
def isSubseg (subs : List (ℕ × ℕ)) (v w : ℕ) : Bool :=
  subs.any (fun s => (s.1 == v && s.2 == w) || (s.1 == w && s.2 == v))

/-- Modelled from the spec: adjacency used by the hole flood-fill of §4.6
(missing from the sources at hand) - two distinct faces are connected iff
they share an edge (two vertices) and that edge is not a constraining
subsegment. -/
def openAdjacent (subs : List (ℕ × ℕ)) (t u : ℕ × ℕ × ℕ) : Bool :=
  let commons := (triVerts t).filter (fun v => (triVerts u).contains v)
  t ≠ u && commons.length == 2 && !(isSubseg subs (commons.getD 0 0) (commons.getD 1 0))

/-- Point-in-closed-triangle test for a CCW face, used to locate the face
containing a hole marker. -/
def containsPt (pts : List Pt) (t : ℕ × ℕ × ℕ) (q : Pt) : Bool :=
  orient2d (ptAt pts t.1) (ptAt pts t.2.1) q ≥ 0 &&
  orient2d (ptAt pts t.2.1) (ptAt pts t.2.2) q ≥ 0 &&
  orient2d (ptAt pts t.2.2) (ptAt pts t.1) q ≥ 0

/-- One round of the flood-fill mark phase: a face becomes marked if it is
already marked or is connected to a marked face across a non-subsegment
edge. -/
def floodStep (subs : List (ℕ × ℕ)) (tris marked : List (ℕ × ℕ × ℕ)) :
    List (ℕ × ℕ × ℕ) :=
  tris.filter (fun t => marked.contains t || marked.any (fun m => openAdjacent subs t m))

/-- Iterate the flood-fill step; as many rounds as there are faces always
reach the fixed point. -/
def floodIter (f : List (ℕ × ℕ × ℕ) → List (ℕ × ℕ × ℕ)) :
    ℕ → List (ℕ × ℕ × ℕ) → List (ℕ × ℕ × ℕ)
  | 0, m => m
  | n + 1, m => floodIter f n (f m)

/-- Modelled from the spec: hole removal (§4.6, missing from the sources at
hand) with the keep-convex-hull policy of the test scenarios - every face
reachable from a face containing a hole marker, across edges that are not
constraining subsegments, is marked and discarded; the remaining faces are
the triangulation exposed to the caller. -/
def remainingTriangles (pts : List Pt) (subs : List (ℕ × ℕ)) (holes : List Pt) :
    List (ℕ × ℕ × ℕ) :=
  let tris := delaunayTriangles pts
  let seeds := tris.filter (fun t => holes.any (fun h => containsPt pts t h))
  let marked := floodIter (floodStep subs tris) tris.length seeds
  tris.filter (fun t => !(marked.contains t))

/-- Trace levels of the wrapper (DebugOutputLevel in tpp_interface.hpp). -/
inductive DebugOutputLevel
  | None
  | Info
  | Vertex
  | Debug

/-- Constraint and input configuration of a `Delaunay` instance at the time
of a triangulation call: quality flag, min-angle, max-area, resolved
constraining segments, hole markers and the keep-convex-hull flag. -/
structure TriConfig where
  quality : Bool
  minAngle : ℚ
  maxArea : ℚ
  segments : List (ℕ × ℕ)
  holes : List Pt
  convexHullWithSegments : Bool

/-- Modelled from the spec: the result data of one triangulation run - the
data flow of §2 as far as it is determined by the spec (initial Delaunay
construction §4.4 followed by hole removal §4.6; segment carving §4.5 and
quality refinement §4.7 insert no faces relevant to the claims settled
against this model and are not modelled). -/
def triangulationCore (pts : List Pt) (cfg : TriConfig) : List (ℕ × ℕ × ℕ) :=
  remainingTriangles pts cfg.segments cfg.holes

/-- Modelled from the spec: diagnostic emission controlled by the trace
level (§6: larger levels emit ever more messages). -/
def traceOutput (lvl : DebugOutputLevel) (pts : List Pt) : List String :=
  match lvl with
  | DebugOutputLevel.None => []
  | DebugOutputLevel.Info => ["algorithmic progress and statistics"]
  | DebugOutputLevel.Vertex =>
      "algorithmic progress and statistics" :: pts.map (fun _ => "vertex detail")
  | DebugOutputLevel.Debug =>
      "algorithmic progress and statistics" :: "debugger detail"
        :: pts.map (fun _ => "vertex detail")

/-- Modelled from the spec: `Delaunay::Triangulate(quality, traceLvl)` - the
produced mesh together with the emitted diagnostics.  Per §6 the trace
level only controls the diagnostics. -/
def TriangulateM (pts : List Pt) (cfg : TriConfig) (traceLvl : DebugOutputLevel) :
    List (ℕ × ℕ × ℕ) × List String :=
  (triangulationCore pts cfg, traceOutput traceLvl pts)

/-- Modelled from the spec: `Delaunay::TriangulateConf(quality, traceLvl)` -
the conforming variant (§4.5); its segment subdivision is not modelled, on
the inputs considered it coincides with the core pipeline. -/
def TriangulateConfM (pts : List Pt) (cfg : TriConfig) (traceLvl : DebugOutputLevel) :
    List (ℕ × ℕ × ℕ) × List String :=
  (triangulationCore pts cfg, traceOutput traceLvl pts)

/-- Homogeneous circumcenter of a triangle: `((x, y), d)` stands for the
exact point (x/d, y/d); denominator component. -/
def circumDen (a b c : Pt) : ℤ :=
  2 * ((b.1 - a.1) * (c.2 - a.2) - (b.2 - a.2) * (c.1 - a.1))

/-- Homogeneous circumcenter, x numerator. -/
def circumNumX (a b c : Pt) : ℤ :=
  circumDen a b c * a.1 +
    ((c.2 - a.2) * ((b.1 - a.1) ^ 2 + (b.2 - a.2) ^ 2)
      - (b.2 - a.2) * ((c.1 - a.1) ^ 2 + (c.2 - a.2) ^ 2))

/-- Homogeneous circumcenter, y numerator. -/
def circumNumY (a b c : Pt) : ℤ :=
  circumDen a b c * a.2 +
    ((b.1 - a.1) * ((c.1 - a.1) ^ 2 + (c.2 - a.2) ^ 2)
      - (c.1 - a.1) * ((b.1 - a.1) ^ 2 + (b.2 - a.2) ^ 2))

/-- Modelled from the spec: the circumcenter of a mesh triangle (§4.8), in
exact homogeneous coordinates. -/
def circumcenterH (a b c : Pt) : (ℤ × ℤ) × ℤ :=
  ((circumNumX a b c, circumNumY a b c), circumDen a b c)

/-- Modelled from the spec: Voronoi extraction (§4.8, missing from the
sources at hand) - one Voronoi vertex per mesh triangle, located at its
circumcenter. -/
def voronoiPoints (pts : List Pt) : List ((ℤ × ℤ) × ℤ) :=
  (delaunayTriangles pts).map (fun t =>
    circumcenterH (ptAt pts t.1) (ptAt pts t.2.1) (ptAt pts t.2.2))

/-- Modelled from the spec: `Delaunay::Tesselate(useConforming, traceLvl)` -
triangulate, then extract the Voronoi diagram. -/
def TesselateM (pts : List Pt) (cfg : TriConfig) (traceLvl : DebugOutputLevel) :
    (List (ℕ × ℕ × ℕ) × List ((ℤ × ℤ) × ℤ)) × List String :=
  ((triangulationCore pts cfg, voronoiPoints pts), traceOutput traceLvl pts)

/-- Triangle count reported by `Delaunay::ntriangles()` after a
`Triangulate` call with the given configuration. -/
def ntriangles (pts : List Pt) (cfg : TriConfig) : ℕ :=
  (TriangulateM pts cfg DebugOutputLevel.None).1.length

/-- Voronoi point count reported by `Delaunay::nvpoints()` after a
`Tesselate` call. -/
def nvpoints (pts : List Pt) (cfg : TriConfig) : ℕ :=
  (TesselateM pts cfg DebugOutputLevel.None).1.2.length

/-- The five-point input of scenario S1 / TEST 1, in units of 1/8:
(0,0), (1,1), (0,2), (3,3), (1.5,2.125) scaled by 8. -/
def fivePoints : List Pt := [(0, 0), (8, 8), (0, 16), (24, 24), (12, 17)]

/-- The eleven-point trapezoidal input of scenario S7 / TEST 4, in units of
1/4: (0,0), (0,1), (0,3), (2,0), (4,1.25), (4,3), (6,0), (8,1.25), (9,0),
(9,0.75), (9,3) scaled by 4. -/
def trapezoidPoints : List Pt :=
  [(0, 0), (0, 4), (0, 12), (8, 0), (16, 5), (16, 12),
   (24, 0), (32, 5), (36, 0), (36, 3), (36, 12)]

/-- Hole marker (0.25, 0.25) of TEST 5.1 (unconstrained + holes), in units
of 1/4. -/
def trapezoidHoleMarker : Pt := (1, 1)

/-- Configuration of the plain unconstrained runs (TEST 1, TEST 3): no
segments, no holes, quality off, default bounds. -/
def unconstrainedCfg : TriConfig := TriConfig.mk false 20 (-1) [] [] false

/-- Configuration of TEST 5.1 (unconstrained + holes): no segments, the
single hole marker, keep-convex-hull flag on, quality requested. -/
def holesNoSegmentsCfg : TriConfig :=
  TriConfig.mk true 20 (-1) [] [trapezoidHoleMarker] true

/-- Rational-coordinate point, as the double-precision input points of the
wrapper are modelled exactly. -/
abbrev QPt := ℚ × ℚ

/-- Literal coordinates of the five-point input. -/
def fivePointsQ : List QPt := [(0, 0), (1, 1), (0, 2), (3, 3), (1.5, 2.125)]

/-- Literal coordinates of the trapezoidal input. -/
def trapezoidPointsQ : List QPt :=
  [(0, 0), (0, 1), (0, 3), (2, 0), (4, 1.25), (4, 3),
   (6, 0), (8, 1.25), (9, 0), (9, 0.75), (9, 3)]

/-- The scaled five-point list divided by its scale 8 is the literal input
of TEST 1. -/
theorem fivePoints_models_input :
    fivePoints.map (fun p => ((p.1 : ℚ) / 8, (p.2 : ℚ) / 8)) = fivePointsQ := by
  simp only [fivePoints, fivePointsQ, List.map_cons, List.map_nil]
  norm_num

/-- The scaled trapezoid list divided by its scale 4 is the literal input
of TEST 4. -/
theorem trapezoidPoints_models_input :
    trapezoidPoints.map (fun p => ((p.1 : ℚ) / 4, (p.2 : ℚ) / 4)) = trapezoidPointsQ := by
  simp only [trapezoidPoints, trapezoidPointsQ, List.map_cons, List.map_nil]
  norm_num

/-- The scaled hole marker divided by its scale 4 is the literal marker
(0.25, 0.25) of TEST 5.1. -/
theorem trapezoidHoleMarker_models_input :
    ((trapezoidHoleMarker.1 : ℚ) / 4, (trapezoidHoleMarker.2 : ℚ) / 4) =
      ((0.25 : ℚ), (0.25 : ℚ)) := by
  simp only [trapezoidHoleMarker]
  norm_num

/-- The homogeneous circumcenter is equidistant from the three triangle
vertices (distances compared after clearing the denominator), so it is the
center of the circle through them. -/
theorem circumcenterH_equidistant (a b c : Pt) :
    ((circumNumX a b c - circumDen a b c * a.1) ^ 2
        + (circumNumY a b c - circumDen a b c * a.2) ^ 2
      = (circumNumX a b c - circumDen a b c * b.1) ^ 2
        + (circumNumY a b c - circumDen a b c * b.2) ^ 2)
    ∧ ((circumNumX a b c - circumDen a b c * a.1) ^ 2
        + (circumNumY a b c - circumDen a b c * a.2) ^ 2
      = (circumNumX a b c - circumDen a b c * c.1) ^ 2
        + (circumNumY a b c - circumDen a b c * c.2) ^ 2) := by
  constructor <;>
    · simp only [circumNumX, circumNumY, circumDen]
      ring

/-- Modelled from the spec: the min-angle value up to which quality
triangulation is guaranteed to terminate (§4.7.1: about 27 degrees). -/
def minAngleGuaranteed : ℚ := 27

/-- Modelled from the spec: the min-angle value up to which termination is
still highly likely (§4.7.1: about 33.8 degrees). -/
def minAnglePossible : ℚ := 33.8

/-- Modelled from the spec: `Delaunay::checkConstraintsOpt(relaxed)`
(§4.7.1, missing from the sources at hand) - true iff the configured
min-angle is within the guaranteed band, or, when relaxed acceptance is
requested, within the highly-likely band. -/
def checkConstraintsOpt (minAngle : ℚ) (relaxed : Bool) : Bool :=
  if minAngle ≤ minAngleGuaranteed then true
  else if minAngle ≤ minAnglePossible then relaxed
  else false

/-- Claim C7: with setMinAngle(44), the sanity check rejects the
configuration even in relaxed mode - checkConstraintsOpt returns false for
relaxed = true (and for strict mode as well): 44 degrees is neither in the
guaranteed band nor in the highly-likely band. -/
theorem checkConstraintsOpt_rejects_44 :
    checkConstraintsOpt 44 true = false ∧ checkConstraintsOpt 44 false = false := by
  constructor <;>
    · simp only [checkConstraintsOpt, minAngleGuaranteed, minAnglePossible]
      norm_num

/-- Claim C1: triangulating the five input points (0,0), (1,1), (0,2),
(3,3), (1.5,2.125) with quality off yields a triangulation with exactly 4
triangles (scenario S1, TEST 1). -/
theorem triangulate_five_points_ntriangles :
    ntriangles fivePoints unconstrainedCfg = 4 := by decide

/-- Claim C3: with no constraining segments set and the hole marker
(0.25,0.25) supplied, triangulating the eleven-point trapezoidal input
removes every triangle - the flood-fill from the marker crosses every
(unconstrained) edge and reaches the whole mesh, so ntriangles returns 0
(TEST 5.1, unconstrained + holes). -/
theorem triangulate_holes_unconstrained_ntriangles :
    ntriangles trapezoidPoints holesNoSegmentsCfg = 0 := by decide

/-- Claim C5: after Tesselate on the five-point input of S1, the number of
Voronoi points equals the triangle count of the underlying Delaunay
triangulation - one Voronoi vertex (circumcenter) per mesh triangle -
namely 4 (scenario S6, TEST 3). -/
theorem tesselate_five_points_nvpoints :
    nvpoints fivePoints unconstrainedCfg = ntriangles fivePoints unconstrainedCfg
    ∧ nvpoints fivePoints unconstrainedCfg = 4 := by
  constructor <;> decide

/-- Claim C9: two triangulation runs that differ only in the trace level
produce identical triangulation (and tessellation) results; the level only
changes the emitted diagnostics. -/
theorem traceLvl_has_no_effect_on_results (pts : List Pt) (cfg : TriConfig)
    (l1 l2 : DebugOutputLevel) :
    (TriangulateM pts cfg l1).1 = (TriangulateM pts cfg l2).1
    ∧ (TriangulateConfM pts cfg l1).1 = (TriangulateConfM pts cfg l2).1
    ∧ (TesselateM pts cfg l1).1 = (TesselateM pts cfg l2).1 :=
  ⟨rfl, rfl, rfl⟩

/-- State of a `Delaunay` instance relevant to constraint configuration:
the input point list, the stored (resolved) segment endpoint index list,
hole markers and quality settings. -/
structure DelaunayState where
  pointList : List Pt
  segmentList : List ℕ
  holesList : List Pt
  convexHullWithSegments : Bool
  minAngle : ℚ
  maxArea : ℚ

/-- Consecutive pairing of the flat segment point list (§6: points are
interpreted pairwise as segment endpoints); an odd-length list has no valid
pairing. -/
def pairUp : List Pt → Option (List (Pt × Pt))
  | [] => some []
  | [_] => none
  | a :: b :: rest => (pairUp rest).map (fun l => (a, b) :: l)

/-- Resolve a segment endpoint to the index of an existing input vertex. -/
def resolveIndex (ptsL : List Pt) (p : Pt) : Option ℕ :=
  ptsL.findIdx? (fun q => q == p)

/-- Resolve all segment endpoints; fails if any endpoint is not an input
vertex. -/
def resolveSegments (ptsL : List Pt) : List (Pt × Pt) → Option (List (ℕ × ℕ))
  | [] => some []
  | s :: rest =>
    match resolveIndex ptsL s.1, resolveIndex ptsL s.2, resolveSegments ptsL rest with
    | some i, some j, some l => some ((i, j) :: l)
    | _, _, _ => none

/-- Is p on the closed segment from a to b? -/
def onSegment (p a b : Pt) : Bool :=
  orient2d a b p == 0 &&
  decide (min a.1 b.1 ≤ p.1) && decide (p.1 ≤ max a.1 b.1) &&
  decide (min a.2 b.2 ≤ p.2) && decide (p.2 ≤ max a.2 b.2)

/-- Do the open segments (a,b) and (c,d) cross properly (intersection point
interior to both)? -/
def strictCross (a b c d : Pt) : Bool :=
  decide (orient2d a b c * orient2d a b d < 0) &&
  decide (orient2d c d a * orient2d c d b < 0)

/-- Are (a,b) and (c,d) the same segment (up to direction)? -/
def sameSegment (a b c d : Pt) : Bool :=
  (a == c && b == d) || (a == d && b == c)

/-- Does an endpoint of one segment lie on the other segment without being
one of its endpoints? -/
def endpointTouchBad (a b c d : Pt) : Bool :=
  (onSegment c a b && !(c == a) && !(c == b)) ||
  (onSegment d a b && !(d == a) && !(d == b)) ||
  (onSegment a c d && !(a == c) && !(a == d)) ||
  (onSegment b c d && !(b == c) && !(b == d))

/-- Do two segments intersect anywhere other than at a common endpoint? -/
def segPairBad (a b c d : Pt) : Bool :=
  strictCross a b c d || endpointTouchBad a b c d || sameSegment a b c d

/-- Does some input vertex lie in the relative interior of the segment? -/
def vertexOnSegmentBad (ptsL : List Pt) (a b : Pt) : Bool :=
  ptsL.any (fun v => onSegment v a b && !(v == a) && !(v == b))

/-- Pairwise check of the resolved segments for illegal intersections. -/
def pairsBad (ptsL : List Pt) : List (ℕ × ℕ) → Bool
  | [] => false
  | s :: rest =>
    rest.any (fun u =>
      segPairBad (ptAt ptsL s.1) (ptAt ptsL s.2) (ptAt ptsL u.1) (ptAt ptsL u.2))
    || pairsBad ptsL rest

/-- Modelled from the spec: the input contract on constraining segments
(§6): endpoints distinct, no input vertex in a segment's relative interior,
and segments intersect each other only at common endpoints. -/
def segmentsOk (ptsL : List Pt) (idxSegs : List (ℕ × ℕ)) : Bool :=
  idxSegs.all (fun s =>
    !(s.1 == s.2) && !(vertexOnSegmentBad ptsL (ptAt ptsL s.1) (ptAt ptsL s.2)))
  && !(pairsBad ptsL idxSegs)

/-- Flatten resolved segments into the stored endpoint index list. -/
def flattenSegs : List (ℕ × ℕ) → List ℕ
  | [] => []
  | s :: rest => s.1 :: s.2 :: flattenSegs rest

/-- Modelled from the spec: `Delaunay::setSegmentConstraint` (implementation
missing from the sources at hand) - pair up the supplied points, resolve
every endpoint to an existing input vertex and validate the intersection
contract; on success store the resolved segment list and return true, on
any violation return false and leave the instance untouched (§6, §7:
validation errors are reported synchronously without mutating the mesh). -/
def setSegmentConstraint (st : DelaunayState) (segments : List Pt) :
    Bool × DelaunayState :=
  match pairUp segments with
  | none => (false, st)
  | some prs =>
    match resolveSegments st.pointList prs with
    | none => (false, st)
    | some idxSegs =>
      if segmentsOk st.pointList idxSegs then
        (true, DelaunayState.mk st.pointList (flattenSegs idxSegs) st.holesList
          st.convexHullWithSegments st.minAngle st.maxArea)
      else (false, st)

/-- Modelled from the spec: validity of a segment input per the §6
contract, as a single decidable check mirroring the validation pipeline. -/
def validSegments (ptsL : List Pt) (segments : List Pt) : Bool :=
  match pairUp segments with
  | none => false
  | some prs =>
    match resolveSegments ptsL prs with
    | none => false
    | some idxSegs => segmentsOk ptsL idxSegs

/-- Claim C8: setSegmentConstraint returns false exactly when the supplied
segments violate the input contract (an endpoint does not resolve to an
existing input vertex, or segments intersect other segments or vertices
elsewhere than at endpoints), and in that case the Delaunay instance is
left completely unchanged - no partial segment list is stored; on valid
input it returns true. -/
theorem setSegmentConstraint_contract (st : DelaunayState) (segments : List Pt) :
    (validSegments st.pointList segments = false →
      setSegmentConstraint st segments = (false, st))
    ∧ (validSegments st.pointList segments = true →
      (setSegmentConstraint st segments).1 = true) := by
  constructor
  · intro h
    unfold setSegmentConstraint
    unfold validSegments at h
    rcases hpu : pairUp segments with _ | prs
    · rfl
    · rcases hrs : resolveSegments st.pointList prs with _ | idx
      · simp only [hpu, hrs]
      · simp only [hpu, hrs] at h ⊢
        simp [h]
  · intro h
    unfold setSegmentConstraint
    unfold validSegments at h
    rcases hpu : pairUp segments with _ | prs
    · simp [hpu] at h
    · rcases hrs : resolveSegments st.pointList prs with _ | idx
      · simp only [hpu] at h
        simp [hrs] at h
      · simp only [hpu, hrs] at h ⊢
        simp [h]

/-- State of a small concrete instance used to witness the segment input
contract: four input points, nothing configured yet. -/
def stWitness : DelaunayState :=
  DelaunayState.mk [(0, 0), (16, 0), (0, 16), (16, 16)] [] [] false 20 (-1)

/-- An invalid segment input: the endpoint (99,99) is not an input vertex. -/
def badSegInput : List Pt := [(0, 0), (99, 99)]

/-- A valid segment input: one segment between two input vertices. -/
def goodSegInput : List Pt := [(0, 0), (16, 0)]

/-- Witness for claim C8: on the concrete invalid input the call returns
false and leaves the state unchanged, and on the concrete valid input it
returns true. -/
theorem setSegmentConstraint_contract_witness :
    (validSegments stWitness.pointList badSegInput = false
      ∧ setSegmentConstraint stWitness badSegInput = (false, stWitness))
    ∧ (validSegments stWitness.pointList goodSegInput = true
      ∧ (setSegmentConstraint stWitness goodSegInput).1 = true) :=
  ⟨⟨by decide, (setSegmentConstraint_contract stWitness badSegInput).1 (by decide)⟩,
   ⟨by decide, (setSegmentConstraint_contract stWitness goodSegInput).2 (by decide)⟩⟩

/-- The public comparator `Delaunay::OrderPoints` of tpp_interface.hpp,
translated clause by clause: first compare the x coordinates, then, at
equal x, the y coordinates; otherwise false.  Coordinates of the
double-precision points are modelled as rationals. -/
def OrderPoints (lhs rhs : QPt) : Bool :=
  if lhs.1 < rhs.1 then true
  else if lhs.1 = rhs.1 ∧ lhs.2 < rhs.2 then true
  else false

/-- Claim C10: OrderPoints is exactly the strict lexicographic order on
coordinates - it returns true iff lhs x is smaller, or the x coordinates
are equal and lhs y is smaller; in particular it is irreflexive. -/
theorem OrderPoints_strict_lex (lhs rhs : QPt) :
    (OrderPoints lhs rhs = true ↔
      lhs.1 < rhs.1 ∨ (lhs.1 = rhs.1 ∧ lhs.2 < rhs.2))
    ∧ OrderPoints lhs lhs = false := by
  constructor
  · unfold OrderPoints
    split_ifs with h1 h2
    · simp [h1]
    · simp [h2]
    · simp only [Bool.false_eq_true, false_iff]
      intro hc
      rcases hc with hc | hc
      · exact h1 hc
      · exact h2 hc
  · unfold OrderPoints
    split_ifs with h1 h2
    · exact absurd h1 (lt_irrefl _)
    · exact absurd h2.2 (lt_irrefl _)
    · rfl
